import Mathlib

/-!
Verification of the peopleflow multi-camera pipeline (master_console).

Shallow embedding of the functions in `src/master_console/yolo_processor.py`
and `src/master_console/app.py` that the specification's claims are about:
the 2x2 slot mapping for detections, direction classification, the minutely
aggregation pass, the retention cleanup, the control proxy's no-target path,
stream-worker shutdown cleanup, and the merged-canvas layout.

Pixel coordinates (Python floats) are modelled as rationals; wall-clock
timestamps as integers (seconds); JSON records as structures with `Option`
fields for absent/null values.
-/

namespace Peopleflow

/-! ## Slot mapping (`YOLOProcessor.determine_camera_id_from_position`)

The per-cell width/height come from `config.FRAME_WIDTH` / `config.FRAME_HEIGHT`,
passed here as the parameters `cam_width`, `cam_height`. The `frame_width`,
`frame_height` parameters of the Python function are accepted and, as in the
source, never read. -/

def determine_camera_id_from_position (cam_width cam_height : ℚ)
    (center_x center_y : ℚ) (frame_width frame_height : ℚ) : Nat :=
  if center_x < cam_width then
    if center_y < cam_height then 0 else 2
  else
    if center_y < cam_height then 1 else 3

/-! ## Direction classification (`YOLOProcessor.determine_direction` and the
call site in `parse_detections`) -/

def determine_direction (current_position : ℚ × ℚ)
    (previous_position : Option (ℚ × ℚ)) : Option String :=
  match previous_position with
  | none => none
  | some prev =>
    let dx := current_position.1 - prev.1
    if dx > 5 then some "right"
    else if dx < -5 then some "left"
    else none

/-- The direction assigned by `parse_detections` for a track: `none` when the
track id has no previously recorded position, else `determine_direction`
against the previous x (the source passes `(prev_x, center_y)` as the
previous position). -/
def classify_parsed_direction (previous_positions : String → Option (ℚ × ℚ))
    (track_id : String) (center_x center_y : ℚ) : Option String :=
  match previous_positions track_id with
  | none => none
  | some prev => determine_direction (center_x, center_y) (some (prev.1, center_y))

/-! ## Event Log records and the minutely aggregation
(`YOLOProcessor._aggregate_detections`)

A stored JSON detection record: `timestamp` is the parsed local time in
seconds (`none` when the field is empty or unparseable, in which case
`parse_to_local_datetime` returns `None` and the record is skipped);
`camera_id` is `none` when the field is absent or null; `direction` is
`none` when the field is absent and `some none` when it is stored null;
`detection_id` is `""` when absent. -/

structure DetRecord where
  timestamp : Option Int
  camera_id : Option Int
  direction : Option (Option String)
  detection_id : String
deriving DecidableEq

/-- `data.get('direction', 'unknown')`: an absent field defaults to the
string `"unknown"`; a stored null stays `None`. -/
def directionKey (r : DetRecord) : Option String :=
  match r.direction with
  | none => some "unknown"
  | some d => d

/-- `start_time <= detection_time < end_time`, false when the timestamp did
not parse (the source `continue`s on those records). -/
def inWindow (start_time end_time : Int) (r : DetRecord) : Bool :=
  match r.timestamp with
  | none => false
  | some t => decide (start_time ≤ t) && decide (t < end_time)

/-- A record is counted toward slot `cid`: inside the window and
`camera_id` equal to `cid` (records with absent/null `camera_id` fail the
`is not None` guard). -/
def slotWindowPred (start_time end_time : Int) (cid : Int) (r : DetRecord) : Bool :=
  inWindow start_time end_time r && decide (r.camera_id = some cid)

/-- `aggregated_data[(camera_id, direction)]` read back for one key. -/
def dirCount (start_time end_time : Int) (records : List DetRecord) (cid : Int)
    (d : Option String) : Nat :=
  records.countP (fun r =>
    slotWindowPred start_time end_time cid r && decide (directionKey r = d))

/-- The distinct truthy detection ids recorded for a slot within the window
(`unique_detections[camera_id]`). -/
def uniqueIds (start_time end_time : Int) (records : List DetRecord) (cid : Int) :
    List String :=
  ((records.filter (fun r =>
      slotWindowPred start_time end_time cid r && decide (r.detection_id ≠ ""))).map
    (fun r => r.detection_id)).dedup

structure AggregatedBucket where
  timestamp : Int
  camera_id : Int
  right_count : Nat
  left_count : Nat
  unknown_count : Nat
  total_count : Nat
  unique_detections : Nat
deriving DecidableEq

/-- The bucket written for one camera id in an aggregation pass: counts for
`'right'`, `'left'`, null and `'unknown'` directions, written only when
`total_count > 0`. -/
def mkBucket (start_time end_time : Int) (records : List DetRecord) (cid : Int) :
    Option AggregatedBucket :=
  let right_count := dirCount start_time end_time records cid (some "right")
  let left_count := dirCount start_time end_time records cid (some "left")
  let unknown_count := dirCount start_time end_time records cid none +
    dirCount start_time end_time records cid (some "unknown")
  let total_count := right_count + left_count + unknown_count
  let unique_count := (uniqueIds start_time end_time records cid).length
  if total_count > 0 then
    some ⟨start_time, cid, right_count, left_count, unknown_count, total_count, unique_count⟩
  else none

/-- One aggregation pass over the window `[start_time, end_time)`: the list of
buckets appended to `detections_minutely.jsonl`, looping `camera_id` over
`range(4)`, i.e. the ids 0, 1, 2, 3. -/
def aggregate_detections (start_time end_time : Int) (records : List DetRecord) :
    List AggregatedBucket :=
  ([0, 1, 2, 3] : List Int).filterMap (fun cid => mkBucket start_time end_time records cid)

/-! ## Retention cleanup (`YOLOProcessor._cleanup_old_data`) -/

/-- One stored line of `detections.jsonl`: blank after stripping, a line that
fails JSON parsing, or a parsed record. -/
inductive LogLine where
  | blank
  | malformed
  | record (r : DetRecord)
deriving DecidableEq

/-- A line appended to `kept_lines`: records whose timestamp is missing or
unparseable are kept, records with `detection_time >= cutoff_time` are kept;
blank lines are skipped and JSON-parse failures are not kept. -/
def cleanup_keep (cutoff : Int) (l : LogLine) : Bool :=
  match l with
  | .blank => false
  | .malformed => false
  | .record r =>
    match r.timestamp with
    | none => true
    | some t => decide (cutoff ≤ t)

/-- A line counted in `removed_count`: JSON-parse failures and records older
than the cutoff. -/
def cleanup_removed (cutoff : Int) (l : LogLine) : Bool :=
  match l with
  | .blank => false
  | .malformed => true
  | .record r =>
    match r.timestamp with
    | none => false
    | some t => decide (t < cutoff)

/-- One run of `_cleanup_old_data` at wall-clock time `now` (seconds):
`cutoff_time = now - 30 minutes`; the file is rewritten with the kept lines
only when `removed_count > 0`, otherwise left untouched. -/
def cleanup_old_data (now : Int) (lines : List LogLine) : List LogLine :=
  let cutoff := now - 30 * 60
  if 0 < lines.countP (cleanup_removed cutoff) then
    lines.filter (cleanup_keep cutoff)
  else
    lines

/-- A stored line that is a well-formed record with a parseable timestamp
inside the retention horizon at time `now`. -/
def wellFormedInHorizon (now : Int) (l : LogLine) : Bool :=
  match l with
  | .record r =>
    match r.timestamp with
    | some t => decide (now - 30 * 60 ≤ t)
    | none => false
  | _ => false

/-! ## Control proxy (`handle_set_camera_controls` in `app.py`) -/

structure ControlTarget where
  ip : String
  port : Nat
  base_url : String
deriving DecidableEq

/-- What the handler does before returning: an immediate `emit` of a
structured reply (no network call was made), or an outbound POST to the
target's `/controls` endpoint with the recognized payload keys. -/
inductive ControlOutcome where
  | reply (ok : Bool) (message : String)
  | forward (url : String) (payload_keys : List String)
deriving DecidableEq

def control_url (t : ControlTarget) : String :=
  t.base_url ++ ":" ++ toString t.port ++ "/controls"

/-- `handle_set_camera_controls`: `camera_id_field` is `none` when the request
carries no `camera_id`, `some none` when it does not parse as an int, and
`some (some cid)` otherwise; `data_keys` are the keys present in the request
payload. -/
def handle_set_camera_controls (camera_targets : Nat → Option ControlTarget)
    (camera_id_field : Option (Option Nat)) (data_keys : List String) : ControlOutcome :=
  match camera_id_field with
  | none => .reply false "camera_id がありません"
  | some none => .reply false "camera_id が不正です"
  | some (some cid) =>
    match camera_targets cid with
    | none => .reply false "カメラ制御先が未検出です（接続を更新してください）"
    | some t =>
      .forward (control_url t)
        (["auto_exposure", "exposure", "software_ev"].filter
          (fun k => data_keys.contains k))

/-! ## Stream-worker shutdown (`read_camera_stream_with_url` cleanup and
`handle_stop_camera` in `app.py`) -/

/-- A decoded frame; only its dimensions matter for these claims. -/
structure Frame where
  w : Nat
  h : Nat
deriving DecidableEq

/-- The shared per-slot dictionaries of `app.py`. -/
structure AppState where
  camera_streams : Nat → Option Frame
  stream_queues : Nat → Option (List Frame)
  camera_caps : Nat → Option Bool
  camera_running : Nat → Option Bool
  camera_targets : Nat → Option ControlTarget

/-- `dict.pop(camera_id, None)` on a per-slot map. -/
def popEntry {α : Type} (m : Nat → Option α) (i : Nat) : Nat → Option α :=
  fun j => if j = i then none else m j

/-- The cleanup block the read loop runs whenever it exits (releases the
`VideoCapture` and pops `camera_caps`, `camera_running`, `camera_streams`,
`stream_queues`; `camera_targets` is not touched there). -/
def stream_loop_cleanup (st : AppState) (i : Nat) : AppState :=
  { st with
    camera_caps := popEntry st.camera_caps i
    camera_running := popEntry st.camera_running i
    camera_streams := popEntry st.camera_streams i
    stream_queues := popEntry st.stream_queues i }

/-- The `stop_camera` handler: sets the slot's run flag to `False` when
present, releases and pops the capture, and pops `camera_streams`,
`stream_queues` and `camera_targets`. -/
def handle_stop_camera (st : AppState) (i : Nat) : AppState :=
  { st with
    camera_running := fun j =>
      if j = i then (st.camera_running j).map (fun _ => false)
      else st.camera_running j
    camera_caps := popEntry st.camera_caps i
    camera_streams := popEntry st.camera_streams i
    stream_queues := popEntry st.stream_queues i
    camera_targets := popEntry st.camera_targets i }

/-! ## Frame merge (`update_merged_frame` in `app.py`) -/

/-- Modelled from the spec: `config.py` is not under `src/`; the spec fixes
`N = 4` slots (reference 2x2 layout), matching the hard-coded 2x2 assembly in
`update_merged_frame`. -/
def MAX_CAMERAS : Nat := 4

/-- `config.FRAME_WIDTH` / `config.FRAME_HEIGHT` (per-cell size). -/
structure MergeConfig where
  FRAME_WIDTH : Nat
  FRAME_HEIGHT : Nat

/-- One cell of the merged canvas: a letterboxed resized frame (with its new
size and padding offsets) or the blank "no signal" cell. -/
inductive Cell where
  | content (resized_w resized_h pad_w pad_h : Nat)
  | placeholder (label : String)
deriving DecidableEq

instance : Inhabited Cell := ⟨.placeholder ""⟩

def no_signal_label (i : Nat) : String :=
  "Camera " ++ toString i ++ " - No Signal"

/-- The cell built for slot `i`: aspect-preserving resize with centered
padding for a populated slot (the float aspect comparison `w/h > W/H` is
modelled by cross-multiplication and Python's `int()` truncation by natural
division), or the labelled placeholder for an unpopulated slot. -/
def build_cell (cfg : MergeConfig) (streams : Nat → Option Frame) (i : Nat) : Cell :=
  match streams i with
  | some f =>
    if f.w * cfg.FRAME_HEIGHT > cfg.FRAME_WIDTH * f.h then
      let new_w := cfg.FRAME_WIDTH
      let new_h := cfg.FRAME_WIDTH * f.h / f.w
      .content new_w new_h ((cfg.FRAME_WIDTH - new_w) / 2) ((cfg.FRAME_HEIGHT - new_h) / 2)
    else
      let new_h := cfg.FRAME_HEIGHT
      let new_w := cfg.FRAME_HEIGHT * f.w / f.h
      .content new_w new_h ((cfg.FRAME_WIDTH - new_w) / 2) ((cfg.FRAME_HEIGHT - new_h) / 2)
  | none => .placeholder (no_signal_label i)

/-- `update_merged_frame(camera_id, frame)`: store the new frame for the slot,
build one cell per slot over `range(MAX_CAMERAS)`, and assemble the 2x2
row-major canvas (`hstack`/`vstack` of cells 0..3). Returns the updated
per-slot frame map and the canvas. -/
def update_merged_frame (cfg : MergeConfig) (streams : Nat → Option Frame)
    (camera_id : Nat) (frame : Frame) : (Nat → Option Frame) × List (List Cell) :=
  let streams' := Function.update streams camera_id (some frame)
  let frames := (List.range MAX_CAMERAS).map (build_cell cfg streams')
  let top_row := [frames.getD 0 default, frames.getD 1 default]
  let bottom_row := [frames.getD 2 default, frames.getD 3 default]
  (streams', [top_row, bottom_row])

/-! ## Concrete inputs used by witnesses and counterexamples -/

/-- One in-window `'right'` event for slot 0 with a truthy detection id. -/
def c4_records : List DetRecord :=
  [⟨some 0, some 0, some (some "right"), "camera0_person_0"⟩]

/-- Twelve slot-2 events inside the window `[0, 60)`: 7 right, 3 left,
2 null-direction. -/
def c2_records : List DetRecord :=
  (List.replicate 7 (⟨some 5, some 2, some (some "right"), "a"⟩ : DetRecord)) ++
  (List.replicate 3 (⟨some 10, some 2, some (some "left"), "b"⟩ : DetRecord)) ++
  (List.replicate 2 (⟨some 20, some 2, some none, "c"⟩ : DetRecord))

/-- An Event Log with an out-of-horizon record, a parse failure, an
in-horizon record and a blank line, for cleanup at time 3600. -/
def c3_lines : List LogLine :=
  [.record ⟨some 100, some 0, some (some "right"), "x"⟩,
   .malformed,
   .record ⟨some 3000, some 1, some none, "y"⟩,
   .blank]

def target0 : ControlTarget :=
  ⟨"192.168.1.10", 8000, "http://192.168.1.10"⟩

/-- A state in which slot 0 is fully populated. -/
def st0 : AppState :=
  ⟨fun _ => some ⟨640, 480⟩, fun _ => some [], fun _ => some true,
   fun _ => some true, fun _ => some target0⟩

end Peopleflow

namespace Peopleflow

/-- C1: the slot assigned to a bounding-box center `(x, y)` is 0 iff
`x < W ∧ y < H`, 1 iff `x ≥ W ∧ y < H`, 2 iff `x < W ∧ y ≥ H`, and 3 iff
`x ≥ W ∧ y ≥ H`, where `W`, `H` are the configured per-cell width and height;
in particular the boundary cases `x = W` and `y = H` fall in the `≥` branch. -/
theorem slot_assignment_iff (W H x y fw fh : ℚ) :
    (determine_camera_id_from_position W H x y fw fh = 0 ↔ x < W ∧ y < H) ∧
    (determine_camera_id_from_position W H x y fw fh = 1 ↔ W ≤ x ∧ y < H) ∧
    (determine_camera_id_from_position W H x y fw fh = 2 ↔ x < W ∧ H ≤ y) ∧
    (determine_camera_id_from_position W H x y fw fh = 3 ↔ W ≤ x ∧ H ≤ y) := by
  unfold determine_camera_id_from_position
  rcases lt_or_ge x W with hx | hx <;> rcases lt_or_ge y H with hy | hy <;>
    simp [hx, hy, not_lt.mpr, not_lt_of_ge, le_of_lt]

/-- C9: the slot mapping is total — for every rational center, any frame
dimensions, and any cell size it returns a slot in {0,1,2,3}, and the result
does not depend on the `frame_width`/`frame_height` arguments. -/
theorem slot_assignment_total (W H x y fw fh fw' fh' : ℚ) :
    (determine_camera_id_from_position W H x y fw fh =
      determine_camera_id_from_position W H x y fw' fh') ∧
    (determine_camera_id_from_position W H x y fw fh = 0 ∨
     determine_camera_id_from_position W H x y fw fh = 1 ∨
     determine_camera_id_from_position W H x y fw fh = 2 ∨
     determine_camera_id_from_position W H x y fw fh = 3) := by
  refine ⟨rfl, ?_⟩
  unfold determine_camera_id_from_position
  split_ifs <;> simp

/-- C5: for a tracked identity with no previously recorded position the
classified direction is `none`; with a previous center x `px`, the direction
is `"right"` iff `x - px > 5`, `"left"` iff `x - px < -5`, and `none`
otherwise. -/
theorem direction_classification (previous_positions : String → Option (ℚ × ℚ))
    (track_id : String) (x y px py : ℚ) :
    (previous_positions track_id = none →
      classify_parsed_direction previous_positions track_id x y = none) ∧
    (previous_positions track_id = some (px, py) →
      ((classify_parsed_direction previous_positions track_id x y = some "right" ↔
          x - px > 5) ∧
       (classify_parsed_direction previous_positions track_id x y = some "left" ↔
          x - px < -5) ∧
       (classify_parsed_direction previous_positions track_id x y = none ↔
          ¬ x - px > 5 ∧ ¬ x - px < -5))) := by
  constructor
  · intro h
    simp [classify_parsed_direction, h]
  · intro h
    simp only [classify_parsed_direction, h, determine_direction]
    split_ifs with h1 h2 <;> refine ⟨?_, ?_, ?_⟩ <;> simp_all <;> linarith

/-- Witness for C5 at concrete inputs: previous x 0, current x 10 classifies
as `"right"`. -/
theorem direction_classification_witness :
    classify_parsed_direction (fun _ => some ((0 : ℚ), 0)) "cam0_p0" 10 3 = some "right" :=
  ((direction_classification (fun _ => some ((0 : ℚ), 0)) "cam0_p0" 10 3 0 0).2
    rfl).1.mpr (by norm_num)

end Peopleflow

namespace Peopleflow

/-! ### Helper lemmas about the aggregation pass -/

lemma mkBucket_camera_id {s e : Int} {records : List DetRecord} {cid : Int}
    {b : AggregatedBucket} (h : mkBucket s e records cid = some b) :
    b.camera_id = cid := by
  simp only [mkBucket] at h
  split_ifs at h
  cases h
  rfl

lemma mkBucket_eq_some (s e : Int) (records : List DetRecord) (cid : Int)
    (hpos : 0 < dirCount s e records cid (some "right") +
      dirCount s e records cid (some "left") +
      (dirCount s e records cid none + dirCount s e records cid (some "unknown"))) :
    mkBucket s e records cid = some
      ⟨s, cid,
       dirCount s e records cid (some "right"),
       dirCount s e records cid (some "left"),
       dirCount s e records cid none + dirCount s e records cid (some "unknown"),
       dirCount s e records cid (some "right") + dirCount s e records cid (some "left") +
         (dirCount s e records cid none + dirCount s e records cid (some "unknown")),
       (uniqueIds s e records cid).length⟩ := by
  simp only [mkBucket]
  rw [if_pos hpos]

lemma filter_filterMap_mkBucket (s e : Int) (records : List DetRecord) (cid : Int)
    (l : List Int) (b : AggregatedBucket) (hb : mkBucket s e records cid = some b) :
    (l.filterMap (fun n => mkBucket s e records n)).filter
        (fun x => decide (x.camera_id = cid)) =
      List.replicate (l.countP (fun n => decide (n = cid))) b := by
  induction l with
  | nil => rfl
  | cons a t ih =>
    by_cases hca : a = cid
    · rw [List.filterMap_cons_some (show mkBucket s e records a = some b by rw [hca, hb]),
        List.filter_cons_of_pos (by simp [mkBucket_camera_id hb]),
        ih, List.countP_cons]
      simp [hca, List.replicate_succ]
    · rcases hm : mkBucket s e records a with _ | b'
      · rw [List.filterMap_cons_none hm, ih, List.countP_cons]
        simp [hca]
      · have hc' : b'.camera_id = a := mkBucket_camera_id hm
        rw [List.filterMap_cons_some hm,
          List.filter_cons_of_neg (by simp [hc', hca]),
          ih, List.countP_cons]
        simp [hca]

lemma dirCount_partition (s e : Int) (records : List DetRecord) (cid : Int)
    (hdir : ∀ r ∈ records, slotWindowPred s e cid r = true →
      directionKey r = some "right" ∨ directionKey r = some "left" ∨
      directionKey r = some "unknown" ∨ directionKey r = none) :
    dirCount s e records cid (some "right") + dirCount s e records cid (some "left") +
      (dirCount s e records cid none + dirCount s e records cid (some "unknown")) =
      records.countP (slotWindowPred s e cid) := by
  induction records with
  | nil => rfl
  | cons r t ih =>
    have ht : ∀ x ∈ t, slotWindowPred s e cid x = true →
        directionKey x = some "right" ∨ directionKey x = some "left" ∨
        directionKey x = some "unknown" ∨ directionKey x = none :=
      fun x hx => hdir x (List.mem_cons_of_mem r hx)
    have iht := ih ht
    simp only [dirCount, List.countP_cons] at iht ⊢
    by_cases hb : slotWindowPred s e cid r = true
    · rcases hdir r (List.mem_cons_self r t) hb with hd | hd | hd | hd <;>
        simp only [hb, hd, Bool.true_and, decide_eq_true_eq] <;>
        simp <;> omega
    · simp only [Bool.not_eq_true] at hb
      simp [hb]
      omega

/-- C2: for a slot `cid` in 0..3 and a window `[s, e)`, if the Event Log holds
exactly `k ≥ 1` events for that slot inside the window (each event's
direction being `'right'`, `'left'`, `'unknown'` or null/absent, per the
DetectionEvent data model — `directionKey` folds an absent field to
`"unknown"`), then the aggregation pass writes exactly one bucket whose
camera id is `cid`, with `right_count + left_count + unknown_count = k =
total_count`, the null/absent/`'unknown'` directions all counted in
`unknown_count`. -/
theorem aggregation_lossless_exclusive (s e : Int) (records : List DetRecord)
    (cid : Int) (k : Nat) (h0 : 0 ≤ cid) (h4 : cid < 4)
    (hk : records.countP (slotWindowPred s e cid) = k) (hk1 : 1 ≤ k)
    (hdir : ∀ r ∈ records, slotWindowPred s e cid r = true →
      directionKey r = some "right" ∨ directionKey r = some "left" ∨
      directionKey r = some "unknown" ∨ directionKey r = none) :
    ∃ b : AggregatedBucket,
      (aggregate_detections s e records).filter (fun x => decide (x.camera_id = cid)) = [b] ∧
      b.right_count + b.left_count + b.unknown_count = k ∧
      b.total_count = k ∧
      b.unknown_count =
        dirCount s e records cid none + dirCount s e records cid (some "unknown") := by
  have hsum := dirCount_partition s e records cid hdir
  have hpos : 0 < dirCount s e records cid (some "right") +
      dirCount s e records cid (some "left") +
      (dirCount s e records cid none + dirCount s e records cid (some "unknown")) := by
    rw [hsum, hk]; omega
  have hmk := mkBucket_eq_some s e records cid hpos
  refine ⟨⟨s, cid,
    dirCount s e records cid (some "right"),
    dirCount s e records cid (some "left"),
    dirCount s e records cid none + dirCount s e records cid (some "unknown"),
    dirCount s e records cid (some "right") + dirCount s e records cid (some "left") +
      (dirCount s e records cid none + dirCount s e records cid (some "unknown")),
    (uniqueIds s e records cid).length⟩, ?_, ?_, ?_, ?_⟩
  · unfold aggregate_detections
    rw [filter_filterMap_mkBucket s e records cid [0, 1, 2, 3] _ hmk]
    have hcount : ([0, 1, 2, 3] : List Int).countP (fun n => decide (n = cid)) = 1 := by
      interval_cases cid <;> decide
    rw [hcount]
    rfl
  · simpa using hsum.trans hk
  · simpa using hsum.trans hk
  · rfl

/-- Closed witness for C2: the spec's end-to-end scenario 3 — 12 events for
slot 2 in `[0, 60)`, 7 right / 3 left / 2 null, giving one bucket with
`right + left + unknown = 12 = total`. -/
theorem aggregation_lossless_exclusive_witness :
    (0 : Int) ≤ 2 ∧ (2 : Int) < 4 ∧
    c2_records.countP (slotWindowPred 0 60 2) = 12 ∧
    ∃ b : AggregatedBucket,
      (aggregate_detections 0 60 c2_records).filter (fun x => decide (x.camera_id = 2)) = [b] ∧
      b.right_count + b.left_count + b.unknown_count = 12 ∧
      b.total_count = 12 ∧
      b.unknown_count = dirCount 0 60 c2_records 2 none +
        dirCount 0 60 c2_records 2 (some "unknown") :=
  ⟨by decide, by decide, by decide,
   aggregation_lossless_exclusive 0 60 c2_records 2 12 (by decide) (by decide)
     (by decide) (by decide) (by decide)⟩

end Peopleflow

namespace Peopleflow

/-- C4 counterexample: on a log holding one in-window `'right'` event with a
truthy detection id, the pass writes the bucket
`{right: 1, left: 0, unknown: 0, total: 1, unique: 1}`, whose four sub-counts
(right, left, unknown, unique) sum to 2, not to `total_count = 1`. -/
theorem four_subcounts_counterexample :
    aggregate_detections 0 60 c4_records =
      [⟨0, 0, 1, 0, 0, 1, 1⟩] ∧
    (aggregate_detections 0 60 c4_records).all
      (fun b => b.right_count + b.left_count + b.unknown_count + b.unique_detections ==
        b.total_count) = false := by
  decide

/-- C4 (amended): every bucket written by the aggregation pass has its three
directional sub-counts — right_count, left_count, unknown_count — summing to
total_count; the unique-detection count is a separate tally of distinct
detection ids and is not a summand of total_count. -/
theorem bucket_subcounts_sum (s e : Int) (records : List DetRecord)
    (b : AggregatedBucket) (hb : b ∈ aggregate_detections s e records) :
    b.right_count + b.left_count + b.unknown_count = b.total_count := by
  obtain ⟨n, _, hn⟩ := List.mem_filterMap.mp hb
  simp only [mkBucket] at hn
  split_ifs at hn
  cases hn
  rfl

/-- Closed witness for C4's amended theorem at the one-event log. -/
theorem bucket_subcounts_sum_witness :
    (⟨0, 0, 1, 0, 0, 1, 1⟩ : AggregatedBucket) ∈ aggregate_detections 0 60 c4_records ∧
    (⟨0, 0, 1, 0, 0, 1, 1⟩ : AggregatedBucket).right_count +
      (⟨0, 0, 1, 0, 0, 1, 1⟩ : AggregatedBucket).left_count +
      (⟨0, 0, 1, 0, 0, 1, 1⟩ : AggregatedBucket).unknown_count =
      (⟨0, 0, 1, 0, 0, 1, 1⟩ : AggregatedBucket).total_count :=
  ⟨by decide, bucket_subcounts_sum 0 60 c4_records ⟨0, 0, 1, 0, 0, 1, 1⟩ (by decide)⟩

/-! ### Records with absent/null camera id contribute to no bucket -/

lemma dirCount_filter_camera (s e : Int) (records : List DetRecord) (cid : Int)
    (d : Option String) :
    dirCount s e (records.filter (fun r => decide (r.camera_id ≠ none))) cid d =
      dirCount s e records cid d := by
  simp only [dirCount, List.countP_filter]
  have hfun : (fun r => (slotWindowPred s e cid r && decide (directionKey r = d)) &&
      decide (r.camera_id ≠ none)) =
      (fun r => slotWindowPred s e cid r && decide (directionKey r = d)) :=
    funext fun r => by cases hc : r.camera_id <;> simp [slotWindowPred, hc]
  rw [hfun]

lemma uniqueIds_filter_camera (s e : Int) (records : List DetRecord) (cid : Int) :
    uniqueIds s e (records.filter (fun r => decide (r.camera_id ≠ none))) cid =
      uniqueIds s e records cid := by
  simp only [uniqueIds, List.filter_filter]
  have hfun : (fun r => (slotWindowPred s e cid r && decide (r.detection_id ≠ "")) &&
      decide (r.camera_id ≠ none)) =
      (fun r => slotWindowPred s e cid r && decide (r.detection_id ≠ "")) :=
    funext fun r => by cases hc : r.camera_id <;> simp [slotWindowPred, hc]
  rw [hfun]

lemma mkBucket_filter_camera (s e : Int) (records : List DetRecord) (cid : Int) :
    mkBucket s e (records.filter (fun r => decide (r.camera_id ≠ none))) cid =
      mkBucket s e records cid := by
  simp only [mkBucket, dirCount_filter_camera, uniqueIds_filter_camera]

/-- C10: records whose `camera_id` is absent or null are invisible to the
aggregation pass — removing them from the log leaves every written bucket
(all four counts and the unique-detection count, for every slot) unchanged,
even when their timestamps lie inside the window. -/
theorem null_camera_records_ignored (s e : Int) (records : List DetRecord) :
    aggregate_detections s e (records.filter (fun r => decide (r.camera_id ≠ none))) =
      aggregate_detections s e records := by
  simp only [aggregate_detections, mkBucket_filter_camera]

/-- C3: one cleanup run at time `now` leaves no record with a parsed
timestamp older than `now` minus 30 minutes; it preserves, in order and
unchanged, every well-formed record whose timestamp is within the horizon;
and it keeps no line that failed JSON parsing. -/
theorem retention_cleanup (now : Int) (lines : List LogLine) :
    (∀ l ∈ cleanup_old_data now lines, ∀ r t, l = LogLine.record r →
      r.timestamp = some t → now - 30 * 60 ≤ t) ∧
    ((cleanup_old_data now lines).filter (wellFormedInHorizon now) =
      lines.filter (wellFormedInHorizon now)) ∧
    (∀ l ∈ cleanup_old_data now lines, l ≠ LogLine.malformed) := by
  by_cases hrm : 0 < lines.countP (cleanup_removed (now - 30 * 60))
  · have hres : cleanup_old_data now lines =
        lines.filter (cleanup_keep (now - 30 * 60)) := by
      simp only [cleanup_old_data]
      rw [if_pos hrm]
    refine ⟨?_, ?_, ?_⟩
    · intro l hl r t hrec hts
      rw [hres] at hl
      have hk := List.of_mem_filter hl
      subst hrec
      simp only [cleanup_keep, hts] at hk
      exact of_decide_eq_true hk
    · rw [hres, List.filter_filter]
      have hfun : (fun l => wellFormedInHorizon now l && cleanup_keep (now - 30 * 60) l) =
          wellFormedInHorizon now := by
        funext l
        cases l with
        | blank => rfl
        | malformed => rfl
        | record r =>
          cases hts : r.timestamp with
          | none => simp [wellFormedInHorizon, cleanup_keep, hts]
          | some t => simp [wellFormedInHorizon, cleanup_keep, hts, Bool.and_self]
      rw [hfun]
    · intro l hl hbad
      rw [hres] at hl
      have hk := List.of_mem_filter hl
      rw [hbad] at hk
      simp [cleanup_keep] at hk
  · have hzero : lines.countP (cleanup_removed (now - 30 * 60)) = 0 := by omega
    have hnone := List.countP_eq_zero.mp hzero
    have hres : cleanup_old_data now lines = lines := by
      simp only [cleanup_old_data]
      rw [if_neg hrm]
    refine ⟨?_, ?_, ?_⟩
    · intro l hl r t hrec hts
      rw [hres] at hl
      have hnr := hnone l hl
      subst hrec
      simp only [cleanup_removed, hts] at hnr
      have hge : ¬ t < now - 30 * 60 := fun h => hnr (decide_eq_true h)
      omega
    · rw [hres]
    · intro l hl hbad
      rw [hres] at hl
      have hnr := hnone l hl
      rw [hbad] at hnr
      simp [cleanup_removed] at hnr

/-- Closed witness for C3 on a concrete log: cleanup at time 3600 preserves
exactly the well-formed in-horizon records. -/
theorem retention_cleanup_witness :
    (cleanup_old_data 3600 c3_lines).filter (wellFormedInHorizon 3600) =
      c3_lines.filter (wellFormedInHorizon 3600) :=
  (retention_cleanup 3600 c3_lines).2.1

end Peopleflow

namespace Peopleflow

/-- Witness for C1 at the spec's end-to-end scenario 2: in a 640x480-per-cell
grid a center at (50, 50) maps to slot 0 and one at (700, 50) to slot 1. -/
theorem slot_assignment_iff_witness :
    determine_camera_id_from_position 640 480 50 50 1280 960 = 0 ∧
    determine_camera_id_from_position 640 480 700 50 1280 960 = 1 :=
  ⟨(slot_assignment_iff 640 480 50 50 1280 960).1.mpr ⟨by norm_num, by norm_num⟩,
   (slot_assignment_iff 640 480 700 50 1280 960).2.1.mpr ⟨by norm_num, by norm_num⟩⟩

/-- Witness for C9 at a center outside the canvas (negative x, y below the
grid), with two different frame-dimension arguments. -/
theorem slot_assignment_total_witness :
    (determine_camera_id_from_position 640 480 (-5) 1000 1280 960 =
      determine_camera_id_from_position 640 480 (-5) 1000 0 0) ∧
    (determine_camera_id_from_position 640 480 (-5) 1000 1280 960 = 0 ∨
     determine_camera_id_from_position 640 480 (-5) 1000 1280 960 = 1 ∨
     determine_camera_id_from_position 640 480 (-5) 1000 1280 960 = 2 ∨
     determine_camera_id_from_position 640 480 (-5) 1000 1280 960 = 3) :=
  slot_assignment_total 640 480 (-5) 1000 1280 960 0 0

/-- C6: a control-forward request naming a slot with no recorded
ControlTarget makes the handler emit the structured failure reply
(`ok = False` with a message) immediately; the `ControlOutcome.reply`
constructor is produced before the code reaches the `requests.post` call, so
no network request is attempted. -/
theorem control_forward_unknown_target (camera_targets : Nat → Option ControlTarget)
    (cid : Nat) (data_keys : List String) (h : camera_targets cid = none) :
    handle_set_camera_controls camera_targets (some (some cid)) data_keys =
      ControlOutcome.reply false "カメラ制御先が未検出です（接続を更新してください）" := by
  simp [handle_set_camera_controls, h]

/-- Closed witness for C6: no slot has a target, and a request for slot 2
gets the immediate failure reply. -/
theorem control_forward_unknown_target_witness :
    handle_set_camera_controls (fun _ => none) (some (some 2)) ["exposure"] =
      ControlOutcome.reply false "カメラ制御先が未検出です（接続を更新してください）" :=
  control_forward_unknown_target (fun _ => none) 2 ["exposure"] rfl

/-- C7 counterexample: when the read loop exits on its own, its cleanup block
pops the slot's frame, queue, run-flag and capture entries but leaves the
slot's ControlTarget in place — on the fully populated state `st0` the
target survives slot 0's loop exit, so the claim that every stop path
removes the ControlTarget entry fails. -/
theorem worker_stop_counterexample :
    (stream_loop_cleanup st0 0).camera_streams 0 = none ∧
    (stream_loop_cleanup st0 0).stream_queues 0 = none ∧
    (stream_loop_cleanup st0 0).camera_caps 0 = none ∧
    (stream_loop_cleanup st0 0).camera_targets 0 = some target0 := by
  refine ⟨rfl, rfl, rfl, rfl⟩

/-- C7 (amended): whenever the read loop exits it releases the capture and
removes the slot's FrameBuffer entry, fallback queue, capture and run-flag
entries, but leaves `camera_targets` untouched; the ControlTarget entry is
removed only by the external stop handler, so after an external stop
(handler plus the loop's own cleanup) the frame, queue, capture and
ControlTarget entries are all gone. -/
theorem worker_stop_cleanup (st : AppState) (i : Nat) :
    ((stream_loop_cleanup st i).camera_streams i = none ∧
     (stream_loop_cleanup st i).stream_queues i = none ∧
     (stream_loop_cleanup st i).camera_caps i = none ∧
     (stream_loop_cleanup st i).camera_running i = none) ∧
    ((stream_loop_cleanup st i).camera_targets = st.camera_targets) ∧
    ((stream_loop_cleanup (handle_stop_camera st i) i).camera_streams i = none ∧
     (stream_loop_cleanup (handle_stop_camera st i) i).stream_queues i = none ∧
     (stream_loop_cleanup (handle_stop_camera st i) i).camera_caps i = none ∧
     (stream_loop_cleanup (handle_stop_camera st i) i).camera_targets i = none) := by
  simp [stream_loop_cleanup, handle_stop_camera, popEntry]

/-- C8: after a frame update the merged canvas is exactly the 2x2 row-major
grid of the four per-slot cells (cells 0 and 1 on the top row, 2 and 3 on the
bottom), 4 cells in all; every slot with no current frame gets the
placeholder cell, whose label is the string "Camera i - No Signal" and so
includes the slot's index. -/
theorem merged_canvas_cells (cfg : MergeConfig) (streams : Nat → Option Frame)
    (camera_id : Nat) (frame : Frame) :
    ((update_merged_frame cfg streams camera_id frame).2 =
      [[build_cell cfg (Function.update streams camera_id (some frame)) 0,
        build_cell cfg (Function.update streams camera_id (some frame)) 1],
       [build_cell cfg (Function.update streams camera_id (some frame)) 2,
        build_cell cfg (Function.update streams camera_id (some frame)) 3]]) ∧
    ((update_merged_frame cfg streams camera_id frame).2.join.length = MAX_CAMERAS) ∧
    (∀ i, Function.update streams camera_id (some frame) i = none →
      build_cell cfg (Function.update streams camera_id (some frame)) i =
        Cell.placeholder (no_signal_label i)) ∧
    (∀ i, no_signal_label i = "Camera " ++ toString i ++ " - No Signal") := by
  refine ⟨rfl, rfl, ?_, fun i => rfl⟩
  intro i h
  simp [build_cell, h]

/-- Closed witness for C8: with only slot 0 populated, slot 2's cell is the
labelled placeholder. -/
theorem merged_canvas_cells_witness :
    build_cell ⟨640, 480⟩ (Function.update (fun _ => none) 0 (some ⟨640, 480⟩)) 2 =
      Cell.placeholder (no_signal_label 2) :=
  (merged_canvas_cells ⟨640, 480⟩ (fun _ => none) 0 ⟨640, 480⟩).2.2.1 2
    (by simp [Function.update_apply])

end Peopleflow
